import Mathlib

/-!
# SimplePortfolio — verification of the core library

Shallow embedding of `src/index.ts`: a portfolio generator with three public
operations (`createPortfolio`, `addProject`, `generateHTML`) and two private
helpers (`escapeHTML`, `isValidURL`).  TypeScript strings are Lean `String`s,
JavaScript truthiness of a required `string` field is non-emptiness, optional
fields are `Option`, thrown errors are the `Except.error` branch, and the one
in-place mutation (`portfolio.projects.push`) is explicit state passing:
`addProject` returns the portfolio state after the call alongside its
`Except` outcome.
-/

/-! ## Characters and single-character global replacement

`str.replace(/c/g, rep)` for a single-character pattern `c` rewrites every
occurrence of `c` to `rep`, left to right; on lists of characters that is a
pointwise expansion. -/

def ampChar : Char := '&'

def ltChar : Char := '<'

def gtChar : Char := '>'

def quotChar : Char := '"'

def aposChar : Char := Char.ofNat 39

/-- `str.replace(/c/g, rep)` on the character list of `str`. -/
def replaceChar (c : Char) (rep : List Char) : List Char → List Char
  | [] => []
  | x :: xs => (if x == c then rep else [x]) ++ replaceChar c rep xs

/-- `escapeHTML` from `src/index.ts` lines 52–59: five sequential global
replacements, ampersand first. -/
def escapeHTML (str : String) : String :=
  String.mk
    (replaceChar aposChar "&#039;".data
      (replaceChar quotChar "&quot;".data
        (replaceChar gtChar "&gt;".data
          (replaceChar ltChar "&lt;".data
            (replaceChar ampChar "&amp;".data str.data)))))

/-! ## URL validity -/

/-- Scheme continuation: after the initial letter, `new URL` accepts
letters, digits, `+`, `-`, `.` up to the first colon. -/
def schemeRest : List Char → Bool
  | [] => false
  | c :: cs =>
    if c = ':' then true
    else (c.isAlphanum || c = '+' || c = '-' || c = '.') && schemeRest cs

/-- Modelled from the spec: the body of `isValidURL` (`src/index.ts` lines
66–73) delegates to the host platform's WHATWG `new URL` parser, which is not
part of this repository.  Per §4.2 of the spec it "attempts to parse `text`
as an absolute URL (scheme + authority/path per standard URL syntax)" and
"returns true iff parsing succeeds; false on any parse failure", a total
predicate.  We model the absolute-URL grammar's gate: an ASCII-letter-led
scheme terminated by a colon. -/
def isValidURL (url : String) : Bool :=
  match url.data with
  | [] => false
  | c :: cs => c.isAlpha && schemeRest cs

/-! ## Data model (`src/index.ts` lines 6–45)

`socialLinks` is a JavaScript object with caller-supplied keys; we model it
as the association list that `Object.entries` yields, in the object's key
insertion order.  `theme?: 'light' | 'dark'` is an optional two-valued
enum. -/

inductive Theme where
  | light : Theme
  | dark : Theme
deriving DecidableEq, Repr

structure Project where
  id : String
  title : String
  description : String
  technologies : List String
  url : String
  imageUrl : Option String
deriving DecidableEq, Repr

structure PortfolioConfig where
  name : String
  title : String
  bio : String
  email : String
  socialLinks : Option (List (String × String))
  theme : Option Theme
deriving DecidableEq, Repr

structure Portfolio where
  config : PortfolioConfig
  projects : List Project
deriving DecidableEq, Repr

/-- JavaScript truthiness of an optional string field: present and
non-empty. -/
def truthyOpt (o : Option String) : Bool :=
  match o with
  | none => false
  | some s => !(s == "")

/-- `array.join(sep)`. -/
def joinSep (sep : String) : List String → String
  | [] => ""
  | [x] => x
  | x :: xs => x ++ sep ++ joinSep sep xs

/-! ## createPortfolio (`src/index.ts` lines 81–104) -/

/-- The social-links validation of lines 87–95:
`Object.entries(config.socialLinks).filter(([_, url]) => url && !isValidURL(url)).map(([platform, url]) => platform + ": " + url)`,
empty when `socialLinks` is absent (the block is skipped). -/
def invalidSocialLinks (config : PortfolioConfig) : List String :=
  match config.socialLinks with
  | none => []
  | some links =>
    (links.filter (fun pu => !(pu.2 == "") && !(isValidURL pu.2))).map
      (fun pu => pu.1 ++ ": " ++ pu.2)

def createPortfolio (config : PortfolioConfig) : Except String Portfolio :=
  if config.name == "" || config.title == "" || config.bio == "" || config.email == "" then
    .error "Portfolio requires name, title, bio, and email in configuration"
  else if !((invalidSocialLinks config).length == 0) then
    .error ("Invalid URLs in social links: " ++ joinSep ", " (invalidSocialLinks config))
  else
    .ok { config := { config with
                      theme := some (match config.theme with
                                     | some t => t
                                     | none => Theme.light) },
          projects := [] }

/-! ## addProject (`src/index.ts` lines 112–130)

The TypeScript function mutates `portfolio.projects` in place; here the
second component of the result is the portfolio state when the call
returns (or throws). -/

def addProject (portfolio : Portfolio) (project : Project) :
    Except String Unit × Portfolio :=
  if project.id == "" || project.title == "" || project.description == "" || project.url == "" then
    (.error "Project requires id, title, description, and url", portfolio)
  else if portfolio.projects.any (fun p => p.id == project.id) then
    (.error ("Project with ID \"" ++ project.id ++ "\" already exists"), portfolio)
  else if !(isValidURL project.url) then
    (.error ("Invalid URL in project \"" ++ project.title ++ "\": " ++ project.url), portfolio)
  else if truthyOpt project.imageUrl && !(isValidURL (project.imageUrl.getD "")) then
    (.error ("Invalid image URL in project \"" ++ project.title ++ "\": " ++ project.imageUrl.getD ""),
     portfolio)
  else
    (.ok (), { portfolio with projects := portfolio.projects ++ [project] })

/-! ## generateHTML (`src/index.ts` lines 138–195)

The guard on line 139 is `!portfolio.config || portfolio.projects.length === 0`;
`config` is a required field of the `Portfolio` interface, so only the
emptiness half is representable here (the spec calls the other half
defensive-only). -/

def themeStyles (config : PortfolioConfig) : String :=
  if config.theme == some Theme.dark then
    "body \x7b background: #121212; color: #ffffff; \x7d"
  else
    "body \x7b background: #ffffff; color: #000000; \x7d"

def projectCard (project : Project) : String :=
  "\n      <div class=\"project-card\">\n        <h3>"
    ++ escapeHTML project.title
    ++ "</h3>\n        <p>"
    ++ escapeHTML project.description
    ++ "</p>\n        <div class=\"tech-list\">"
    ++ String.join (project.technologies.map
        (fun tech => "<span class=\"tech-tag\">" ++ escapeHTML tech ++ "</span>"))
    ++ "</div>\n        <a href=\""
    ++ escapeHTML project.url
    ++ "\" target=\"_blank\" rel=\"noopener noreferrer\">View Project</a>\n        "
    ++ (if truthyOpt project.imageUrl then
          "<img src=\"" ++ escapeHTML (project.imageUrl.getD "") ++ "\" alt=\""
            ++ escapeHTML project.title ++ "\">"
        else "")
    ++ "\n      </div>\n    "

def socialLinksHTML (config : PortfolioConfig) : String :=
  match config.socialLinks with
  | none => ""
  | some links =>
    String.join (links.map (fun pu =>
      "<a href=\"" ++ escapeHTML pu.2 ++ "\" class=\"social-link\" rel=\"noopener noreferrer\">"
        ++ escapeHTML pu.1 ++ "</a>"))

def generateHTML (portfolio : Portfolio) : Except String String :=
  if portfolio.projects.length == 0 then
    .error "Cannot generate HTML for empty portfolio"
  else
    .ok ("<!DOCTYPE html>\n<html lang=\"en\">\n<head>\n  <meta charset=\"UTF-8\">\n  <meta name=\"viewport\" content=\"width=device-width, initial-scale=1.0\">\n  <title>"
      ++ escapeHTML portfolio.config.name
      ++ " - "
      ++ escapeHTML portfolio.config.title
      ++ "</title>\n  <style>\n    "
      ++ themeStyles portfolio.config
      ++ "\n    body \x7b font-family: system-ui, sans-serif; padding: 2rem; max-width: 1000px; margin: auto; \x7d\n    h1, h2 \x7b color: #1a73e8; \x7d\n    .project-card \x7b border: 1px solid #ccc; padding: 1rem; margin: 1rem 0; border-radius: 8px; \x7d\n    .tech-tag \x7b background: #eee; padding: 0.3rem 0.6rem; margin: 0.3rem; border-radius: 4px; \x7d\n    .social-link \x7b margin: 0 0.5rem; color: inherit; text-decoration: none; \x7d\n  </style>\n</head>\n<body>\n  <header>\n    <h1>"
      ++ escapeHTML portfolio.config.name
      ++ "</h1>\n    <h2>"
      ++ escapeHTML portfolio.config.title
      ++ "</h2>\n    <p>"
      ++ escapeHTML portfolio.config.bio
      ++ "</p>\n    <p>Email: <a href=\"mailto:"
      ++ escapeHTML portfolio.config.email
      ++ "\">"
      ++ escapeHTML portfolio.config.email
      ++ "</a></p>\n    <div>"
      ++ socialLinksHTML portfolio.config
      ++ "</div>\n  </header>\n  <main>\n    <h2>Projects</h2>\n    "
      ++ String.join (portfolio.projects.map projectCard)
      ++ "\n  </main>\n</body>\n</html>")

/-- The generated document of a portfolio, `""` when generation fails. -/
def htmlOf (portfolio : Portfolio) : String :=
  (generateHTML portfolio).toOption.getD ""

/-! ## Escape-all refinement scaffolding

To state that every piece of user-supplied text reaches the output only
through `escapeHTML`, we factor the renderer: `escapePortfolio` applies
`escapeHTML` to every text field, and the `raw*` functions are the same
templates with the escaping dropped.  The refinement theorem for C1 states
`generateHTML = rawGenerateHTML ∘ escapePortfolio`. -/

def escapeProject (project : Project) : Project :=
  { id := escapeHTML project.id,
    title := escapeHTML project.title,
    description := escapeHTML project.description,
    technologies := project.technologies.map escapeHTML,
    url := escapeHTML project.url,
    imageUrl := project.imageUrl.map escapeHTML }

def escapeConfig (config : PortfolioConfig) : PortfolioConfig :=
  { name := escapeHTML config.name,
    title := escapeHTML config.title,
    bio := escapeHTML config.bio,
    email := escapeHTML config.email,
    socialLinks := config.socialLinks.map
      (fun links => links.map (fun pu => (escapeHTML pu.1, escapeHTML pu.2))),
    theme := config.theme }

def escapePortfolio (portfolio : Portfolio) : Portfolio :=
  { config := escapeConfig portfolio.config,
    projects := portfolio.projects.map escapeProject }

def rawProjectCard (project : Project) : String :=
  "\n      <div class=\"project-card\">\n        <h3>"
    ++ project.title
    ++ "</h3>\n        <p>"
    ++ project.description
    ++ "</p>\n        <div class=\"tech-list\">"
    ++ String.join (project.technologies.map
        (fun tech => "<span class=\"tech-tag\">" ++ tech ++ "</span>"))
    ++ "</div>\n        <a href=\""
    ++ project.url
    ++ "\" target=\"_blank\" rel=\"noopener noreferrer\">View Project</a>\n        "
    ++ (if truthyOpt project.imageUrl then
          "<img src=\"" ++ project.imageUrl.getD "" ++ "\" alt=\""
            ++ project.title ++ "\">"
        else "")
    ++ "\n      </div>\n    "

def rawSocialLinksHTML (config : PortfolioConfig) : String :=
  match config.socialLinks with
  | none => ""
  | some links =>
    String.join (links.map (fun pu =>
      "<a href=\"" ++ pu.2 ++ "\" class=\"social-link\" rel=\"noopener noreferrer\">"
        ++ pu.1 ++ "</a>"))

def rawGenerateHTML (portfolio : Portfolio) : Except String String :=
  if portfolio.projects.length == 0 then
    .error "Cannot generate HTML for empty portfolio"
  else
    .ok ("<!DOCTYPE html>\n<html lang=\"en\">\n<head>\n  <meta charset=\"UTF-8\">\n  <meta name=\"viewport\" content=\"width=device-width, initial-scale=1.0\">\n  <title>"
      ++ portfolio.config.name
      ++ " - "
      ++ portfolio.config.title
      ++ "</title>\n  <style>\n    "
      ++ themeStyles portfolio.config
      ++ "\n    body \x7b font-family: system-ui, sans-serif; padding: 2rem; max-width: 1000px; margin: auto; \x7d\n    h1, h2 \x7b color: #1a73e8; \x7d\n    .project-card \x7b border: 1px solid #ccc; padding: 1rem; margin: 1rem 0; border-radius: 8px; \x7d\n    .tech-tag \x7b background: #eee; padding: 0.3rem 0.6rem; margin: 0.3rem; border-radius: 4px; \x7d\n    .social-link \x7b margin: 0 0.5rem; color: inherit; text-decoration: none; \x7d\n  </style>\n</head>\n<body>\n  <header>\n    <h1>"
      ++ portfolio.config.name
      ++ "</h1>\n    <h2>"
      ++ portfolio.config.title
      ++ "</h2>\n    <p>"
      ++ portfolio.config.bio
      ++ "</p>\n    <p>Email: <a href=\"mailto:"
      ++ portfolio.config.email
      ++ "\">"
      ++ portfolio.config.email
      ++ "</a></p>\n    <div>"
      ++ rawSocialLinksHTML portfolio.config
      ++ "</div>\n  </header>\n  <main>\n    <h2>Projects</h2>\n    "
      ++ String.join (portfolio.projects.map rawProjectCard)
      ++ "\n  </main>\n</body>\n</html>")

/-! ## Substring occurrence -/

/-- `pat` occurs as a contiguous substring of `s`. -/
def occursIn (pat : List Char) : List Char → Bool
  | [] => pat.isEmpty
  | c :: cs => pat.isPrefixOf (c :: cs) || occursIn pat cs

/-- `pat` occurs as a contiguous substring of `s`, on strings. -/
def strOccurs (pat s : String) : Bool :=
  occursIn pat.data s.data

/-! ## Character-wise reading of escapeHTML -/

/-- What one character becomes under the five substitutions. -/
def escapeChar (c : Char) : List Char :=
  if c == ampChar then "&amp;".data
  else if c == ltChar then "&lt;".data
  else if c == gtChar then "&gt;".data
  else if c == quotChar then "&quot;".data
  else if c == aposChar then "&#039;".data
  else [c]

def escapeList : List Char → List Char
  | [] => []
  | c :: cs => escapeChar c ++ escapeList cs

/-- Single left-to-right pass, the spec's §4.1 reading of `escapeHTML`:
each of the five HTML-significant characters of the ORIGINAL string becomes
its entity, every other character is untouched, and ampersands introduced by
the substitutions themselves are never re-escaped. -/
def escapeCharwise (s : String) : String :=
  String.mk (escapeList s.data)

/-- The five sequential replacements of `escapeHTML`, at the list level. -/
def escChain (l : List Char) : List Char :=
  replaceChar aposChar "&#039;".data
    (replaceChar quotChar "&quot;".data
      (replaceChar gtChar "&gt;".data
        (replaceChar ltChar "&lt;".data
          (replaceChar ampChar "&amp;".data l))))


/-! ## Auxiliary definitions for the statements -/

/-- Whether an `Except` computation succeeded. -/
def isOk {e a : Type} (x : Except e a) : Bool :=
  match x with
  | .ok _ => true
  | .error _ => false

/-- The round-trip project of §8: title `<script>`, description `a & b`. -/
def scriptProject : Project :=
  { id := "1", title := "<script>", description := "a & b",
    technologies := [], url := "https://p.com", imageUrl := none }

def scriptPortfolio : Portfolio :=
  { config := { name := "A", title := "T", bio := "B", email := "E",
                socialLinks := none, theme := none },
    projects := [scriptProject] }

/-- A minimal well-formed config (light theme by default). -/
def demoConfig : PortfolioConfig :=
  { name := "Alice", title := "Developer", bio := "Bio",
    email := "alice@example.com",
    socialLinks := some [("github", "https://github.com/alice")],
    theme := none }

/-- A minimal well-formed project. -/
def demoProject : Project :=
  { id := "1", title := "Test Project", description := "Desc",
    technologies := ["React", "TypeScript"], url := "https://project.com",
    imageUrl := some "https://image.com/p.jpg" }

def darkPortfolio : Portfolio :=
  { config := { name := "A", title := "T", bio := "B", email := "E",
                socialLinks := none, theme := some Theme.dark },
    projects := [scriptProject] }

/-- The portfolio `createPortfolio demoConfig` yields. -/
def demoPortfolio0 : Portfolio :=
  { config := { demoConfig with theme := some Theme.light }, projects := [] }

/-- `demoPortfolio0` after a successful `addProject demoProject`. -/
def demoPortfolio1 : Portfolio :=
  { config := demoPortfolio0.config, projects := [demoProject] }

/-- A config whose social links hold two invalid URLs, one empty value and
one valid URL. -/
def badSocialConfig : PortfolioConfig :=
  { name := "Alice", title := "Developer", bio := "Bio",
    email := "alice@example.com",
    socialLinks := some
      [("github", "bad url"), ("x", ""), ("tw", "also bad"), ("ok", "https://ok.com")],
    theme := none }

/-- Portfolios reachable through the public API: `createPortfolio` followed
by finitely many successful `addProject` calls; the index records the
projects passed to the successful calls, in call order. -/
inductive Reachable : Portfolio -> List Project -> Prop where
  | init (config : PortfolioConfig) (p : Portfolio) :
      createPortfolio config = .ok p -> Reachable p []
  | step (p p2 : Portfolio) (project : Project) (l : List Project) :
      Reachable p l -> addProject p project = (.ok (), p2) ->
      Reachable p2 (l ++ [project])

/-! ## Helper lemmas -/

lemma isPrefixOf_append_self (p s : List Char) : p.isPrefixOf (p ++ s) = true := by
  induction p with
  | nil => simp [List.isPrefixOf]
  | cons c cs ih => simp [List.isPrefixOf, ih]

lemma occursIn_append_self (p s : List Char) : occursIn p (p ++ s) = true := by
  cases hp : p ++ s with
  | nil =>
    have : p = [] := by cases p <;> simp_all
    simp [this, occursIn, List.isEmpty]
  | cons c cs =>
    rw [occursIn, ← hp, isPrefixOf_append_self]
    simp

lemma occursIn_append_left (x p s : List Char) (h : occursIn p s = true) :
    occursIn p (x ++ s) = true := by
  induction x with
  | nil => simpa using h
  | cons c cs ih => simp [occursIn, ih]

lemma escapeHTML_eq_chain (s : String) : escapeHTML s = String.mk (escChain s.data) := rfl

lemma replaceChar_append (c : Char) (rep a b : List Char) :
    replaceChar c rep (a ++ b) = replaceChar c rep a ++ replaceChar c rep b := by
  induction a with
  | nil => rfl
  | cons x xs ih => simp [replaceChar, ih]

lemma escChain_append (a b : List Char) :
    escChain (a ++ b) = escChain a ++ escChain b := by
  simp [escChain, replaceChar_append]

lemma escChain_single (c : Char) : escChain [c] = escapeChar c := by
  by_cases h1 : c = ampChar
  · subst h1; rfl
  by_cases h2 : c = ltChar
  · subst h2; rfl
  by_cases h3 : c = gtChar
  · subst h3; rfl
  by_cases h4 : c = quotChar
  · subst h4; rfl
  by_cases h5 : c = aposChar
  · subst h5; rfl
  simp [escChain, replaceChar, escapeChar, h1, h2, h3, h4, h5]

lemma escChain_eq_escapeList (l : List Char) : escChain l = escapeList l := by
  induction l with
  | nil => rfl
  | cons c cs ih =>
    rw [← List.singleton_append, escChain_append, escChain_single]
    simp [escapeList, ih]

lemma escapeHTML_charwise (s : String) : escapeHTML s = escapeCharwise s := by
  rw [escapeHTML_eq_chain, escapeCharwise, escChain_eq_escapeList]

lemma escapeChar_ne_nil (c : Char) : escapeChar c ≠ [] := by
  unfold escapeChar
  split
  · simp
  split
  · simp
  split
  · simp
  split
  · simp
  split
  · simp
  · simp

lemma escapeHTML_eq_empty_iff (s : String) : escapeHTML s = "" ↔ s = "" := by
  rw [escapeHTML_charwise]
  constructor
  · intro h
    cases hs : s.data with
    | nil =>
      cases s with
      | mk d => simp_all
    | cons c cs =>
      exfalso
      have hd : (escapeCharwise s).data = [] := by rw [h]
      rw [escapeCharwise] at hd
      simp [hs, escapeList] at hd
      exact escapeChar_ne_nil c hd.1
  · intro h
    subst h
    rfl

lemma truthyOpt_map_escape (o : Option String) :
    truthyOpt (o.map escapeHTML) = truthyOpt o := by
  cases o with
  | none => rfl
  | some s =>
    simp only [Option.map_some, truthyOpt]
    cases hs : s == "" with
    | true =>
      have : s = "" := by simpa using hs
      subst this
      rfl
    | false =>
      have hne : ¬ s = "" := by simpa using hs
      have : ¬ escapeHTML s = "" := fun h => hne ((escapeHTML_eq_empty_iff s).mp h)
      simp [hs, this]

/-! ## generateHTML factors through escaping -/

lemma escapeHTML_getD (o : Option String) :
    (o.map escapeHTML).getD "" = escapeHTML (o.getD "") := by
  cases o <;> rfl

lemma themeStyles_escape (config : PortfolioConfig) :
    themeStyles (escapeConfig config) = themeStyles config := rfl

lemma escapeConfig_name (config : PortfolioConfig) :
    (escapeConfig config).name = escapeHTML config.name := rfl

lemma escapeConfig_title (config : PortfolioConfig) :
    (escapeConfig config).title = escapeHTML config.title := rfl

lemma escapeConfig_bio (config : PortfolioConfig) :
    (escapeConfig config).bio = escapeHTML config.bio := rfl

lemma escapeConfig_email (config : PortfolioConfig) :
    (escapeConfig config).email = escapeHTML config.email := rfl

lemma rawProjectCard_escape (project : Project) :
    rawProjectCard (escapeProject project) = projectCard project := by
  unfold rawProjectCard projectCard escapeProject
  simp [truthyOpt_map_escape, escapeHTML_getD, List.map_map, Function.comp_def]

lemma rawSocialLinksHTML_escape (config : PortfolioConfig) :
    rawSocialLinksHTML (escapeConfig config) = socialLinksHTML config := by
  unfold rawSocialLinksHTML socialLinksHTML escapeConfig
  cases config.socialLinks with
  | none => rfl
  | some links => simp [List.map_map, Function.comp_def]

lemma generateHTML_raw_escape (portfolio : Portfolio) :
    generateHTML portfolio = rawGenerateHTML (escapePortfolio portfolio) := by
  unfold generateHTML rawGenerateHTML escapePortfolio
  simp only [List.length_map]
  split
  · rfl
  · simp only [escapeConfig_name, escapeConfig_title, escapeConfig_bio, escapeConfig_email,
      themeStyles_escape, rawSocialLinksHTML_escape, List.map_map, Function.comp_def,
      rawProjectCard_escape]

set_option maxRecDepth 100000 in
lemma generateHTML_contains_themeStyles (portfolio : Portfolio) (out : String)
    (h : generateHTML portfolio = .ok out) :
    strOccurs (themeStyles portfolio.config) out = true := by
  unfold generateHTML at h
  split at h
  · cases h
  · injection h with h'
    subst h'
    unfold strOccurs
    simp only [String.data_append, List.append_assoc]
    apply occursIn_append_left
    apply occursIn_append_left
    apply occursIn_append_left
    apply occursIn_append_left
    apply occursIn_append_left
    exact occursIn_append_self _ _

lemma createPortfolio_ok_projects (config : PortfolioConfig) (p : Portfolio)
    (h : createPortfolio config = .ok p) : p.projects = [] := by
  unfold createPortfolio at h
  split at h
  · cases h
  split at h
  · cases h
  · injection h with h'
    subst h'
    rfl

lemma addProject_ok (portfolio : Portfolio) (project : Project) (p2 : Portfolio)
    (h : addProject portfolio project = (.ok (), p2)) :
    p2.projects = portfolio.projects ++ [project] ∧
    portfolio.projects.any (fun q => q.id == project.id) = false := by
  unfold addProject at h
  split at h
  · simp at h
  split at h
  case isTrue hdup => simp at h
  case isFalse hdup =>
    split at h
    · simp at h
    split at h
    · simp at h
    · have h2 : p2 = { portfolio with projects := portfolio.projects ++ [project] } := by
        have := congrArg Prod.snd h
        simpa using this.symm
      subst h2
      exact ⟨rfl, by simpa using hdup⟩

/-! ## Claim theorems -/

/-- C8: `escapeHTML` replaces the five HTML-significant characters `&`, `<`,
`>`, `"` and the apostrophe with `&amp;`, `&lt;`, `&gt;`, `&quot;`,
`&#039;`, ampersand substituted first in the fixed sequence; the sequential
chain equals a single left-to-right character pass (`escapeCharwise`), so
ampersands introduced by the substitutions themselves are never re-escaped —
in particular `escapeHTML "<" = "&lt;"`, not `"&amp;lt;"`.  The function is
a total Lean function, hence pure with no failure mode. -/
theorem escapeHTML_five_entities_single_pass :
    (∀ s : String, escapeHTML s = escapeCharwise s) ∧
    escapeHTML "&" = "&amp;" ∧
    escapeHTML "<" = "&lt;" ∧
    escapeHTML ">" = "&gt;" ∧
    escapeHTML "\"" = "&quot;" ∧
    escapeHTML (String.mk [aposChar]) = "&#039;" :=
  ⟨escapeHTML_charwise, rfl, rfl, rfl, rfl, rfl⟩

set_option maxRecDepth 100000 in
/-- C1: every user-supplied text field reaches the `generateHTML` output
only through `escapeHTML`: the renderer factors as the raw, non-escaping
template (`rawGenerateHTML`) applied to the field-wise escaped portfolio;
and for the round-trip project with title `<script>` and description
`a & b` the output contains `&lt;script&gt;` and `a &amp; b` and no raw
`<script>` substring. -/
theorem generateHTML_escapes_every_field :
    (∀ portfolio : Portfolio,
      generateHTML portfolio = rawGenerateHTML (escapePortfolio portfolio)) ∧
    strOccurs "&lt;script&gt;" (htmlOf scriptPortfolio) = true ∧
    strOccurs "a &amp; b" (htmlOf scriptPortfolio) = true ∧
    strOccurs "<script>" (htmlOf scriptPortfolio) = false :=
  ⟨generateHTML_raw_escape, by decide, by decide, by decide⟩

/-- C7: `generateHTML` fails with the message "Cannot generate HTML for
empty portfolio" exactly when the project list is empty, and succeeds when
it is non-empty (the embedding is a pure function of the portfolio, so the
input is not mutated). -/
theorem generateHTML_empty_iff (portfolio : Portfolio) :
    (generateHTML portfolio = .error "Cannot generate HTML for empty portfolio" ↔
      portfolio.projects = []) ∧
    (portfolio.projects ≠ [] → isOk (generateHTML portfolio) = true) := by
  cases hp : portfolio.projects with
  | nil =>
    constructor
    · simp [generateHTML, hp]
    · intro hne
      exact absurd rfl hne
  | cons q qs =>
    constructor
    · simp [generateHTML, hp]
    · intro _
      simp [isOk, generateHTML, hp]

set_option maxRecDepth 100000 in
/-- Closed instance of C7: a one-project portfolio renders, the same
portfolio with an emptied project list fails with the exact message. -/
theorem generateHTML_empty_iff_witness :
    isOk (generateHTML scriptPortfolio) = true ∧
    generateHTML { config := scriptPortfolio.config, projects := [] } =
      .error "Cannot generate HTML for empty portfolio" :=
  ⟨(generateHTML_empty_iff scriptPortfolio).2 (by decide),
   (generateHTML_empty_iff _).1.mpr rfl⟩

/-- C9: on success the document contains the dark CSS body rule exactly
when the resolved theme is dark and the light rule otherwise, and the theme
rule of the output is one of the two strings, mutually exclusively. -/
theorem generateHTML_theme_rule (portfolio : Portfolio) (out : String)
    (h : generateHTML portfolio = .ok out) :
    (portfolio.config.theme = some Theme.dark →
      strOccurs "body \x7b background: #121212; color: #ffffff; \x7d" out = true) ∧
    (portfolio.config.theme ≠ some Theme.dark →
      strOccurs "body \x7b background: #ffffff; color: #000000; \x7d" out = true) ∧
    (themeStyles portfolio.config = "body \x7b background: #121212; color: #ffffff; \x7d" ↔
      portfolio.config.theme = some Theme.dark) ∧
    (themeStyles portfolio.config = "body \x7b background: #ffffff; color: #000000; \x7d" ↔
      portfolio.config.theme ≠ some Theme.dark) := by
  have hts := generateHTML_contains_themeStyles portfolio out h
  cases htheme : portfolio.config.theme == some Theme.dark with
  | true =>
    have hd : portfolio.config.theme = some Theme.dark := by simpa using htheme
    have he : themeStyles portfolio.config =
        "body \x7b background: #121212; color: #ffffff; \x7d" := by
      simp [themeStyles, htheme]
    refine ⟨fun _ => by rwa [he] at hts, fun hcon => absurd hd hcon, ?_, ?_⟩
    · simp [he, hd]
    · rw [he]
      constructor
      · intro hDL
        exact absurd hDL (by decide)
      · intro hn
        exact absurd hd hn
  | false =>
    have hd : ¬ portfolio.config.theme = some Theme.dark := by simpa using htheme
    have he : themeStyles portfolio.config =
        "body \x7b background: #ffffff; color: #000000; \x7d" := by
      simp [themeStyles, htheme]
    refine ⟨fun hcon => absurd hcon hd, fun _ => by rwa [he] at hts, ?_, ?_⟩
    · rw [he]
      constructor
      · intro hLD
        exact absurd hLD (by decide)
      · intro hdd
        exact absurd hdd hd
    · simp [he, hd]

set_option maxRecDepth 100000 in
/-- Closed instance of C9: a dark portfolio's output contains the dark body
rule, a theme-less portfolio's output contains the light body rule. -/
theorem generateHTML_theme_rule_witness :
    strOccurs "body \x7b background: #121212; color: #ffffff; \x7d"
      (htmlOf darkPortfolio) = true ∧
    strOccurs "body \x7b background: #ffffff; color: #000000; \x7d"
      (htmlOf scriptPortfolio) = true :=
  ⟨(generateHTML_theme_rule darkPortfolio (htmlOf darkPortfolio) (by rfl)).1 rfl,
   ((generateHTML_theme_rule scriptPortfolio (htmlOf scriptPortfolio) (by rfl)).2).1 (by decide)⟩

/-- C2: when several of `addProject`'s failure conditions hold at once, the
error actually raised follows the fixed check order — (1) required fields,
(2) duplicate id, (3) project url validity, (4) imageUrl validity — the
first failing check wins, and the state is left unchanged. -/
theorem addProject_error_order (portfolio : Portfolio) (project : Project) :
    ((project.id = "" ∨ project.title = "" ∨ project.description = "" ∨ project.url = "") →
      addProject portfolio project =
        (.error "Project requires id, title, description, and url", portfolio)) ∧
    (project.id ≠ "" → project.title ≠ "" → project.description ≠ "" → project.url ≠ "" →
      portfolio.projects.any (fun p => p.id == project.id) = true →
      addProject portfolio project =
        (.error ("Project with ID \"" ++ project.id ++ "\" already exists"), portfolio)) ∧
    (project.id ≠ "" → project.title ≠ "" → project.description ≠ "" → project.url ≠ "" →
      portfolio.projects.any (fun p => p.id == project.id) = false →
      isValidURL project.url = false →
      addProject portfolio project =
        (.error ("Invalid URL in project \"" ++ project.title ++ "\": " ++ project.url),
         portfolio)) ∧
    (project.id ≠ "" → project.title ≠ "" → project.description ≠ "" → project.url ≠ "" →
      portfolio.projects.any (fun p => p.id == project.id) = false →
      isValidURL project.url = true →
      truthyOpt project.imageUrl = true →
      isValidURL (project.imageUrl.getD "") = false →
      addProject portfolio project =
        (.error ("Invalid image URL in project \"" ++ project.title ++ "\": "
                   ++ project.imageUrl.getD ""),
         portfolio)) := by
  refine ⟨?_, ?_, ?_, ?_⟩
  · intro h
    rcases h with h | h | h | h <;> simp [addProject, h]
  · intro h1 h2 h3 h4 h5
    simp [addProject, h1, h2, h3, h4, h5]
  · intro h1 h2 h3 h4 h5 h6
    simp [addProject, h1, h2, h3, h4, h5, h6]
  · intro h1 h2 h3 h4 h5 h6 h7 h8
    simp [addProject, h1, h2, h3, h4, h5, h6, h7, h8]

/-- Closed instances of C2, one per check: empty id, duplicate id, invalid
url, invalid image url, each with the exact message and unchanged state. -/
theorem addProject_error_order_witness :
    addProject demoPortfolio0 { demoProject with id := "" } =
      (.error "Project requires id, title, description, and url", demoPortfolio0) ∧
    addProject demoPortfolio1 demoProject =
      (.error "Project with ID \"1\" already exists", demoPortfolio1) ∧
    addProject demoPortfolio0 { demoProject with url := "not a url" } =
      (.error "Invalid URL in project \"Test Project\": not a url", demoPortfolio0) ∧
    addProject demoPortfolio0 { demoProject with imageUrl := some "bad img" } =
      (.error "Invalid image URL in project \"Test Project\": bad img", demoPortfolio0) := by
  refine ⟨?_, ?_, ?_, ?_⟩
  · exact ((addProject_error_order demoPortfolio0 _).1 (Or.inl rfl)).trans (by rfl)
  · exact ((addProject_error_order demoPortfolio1 demoProject).2.1
      (by decide) (by decide) (by decide) (by decide) (by decide)).trans (by rfl)
  · exact ((addProject_error_order demoPortfolio0 _).2.2.1
      (by decide) (by decide) (by decide) (by decide) (by decide) (by decide)).trans (by rfl)
  · exact ((addProject_error_order demoPortfolio0 _).2.2.2
      (by decide) (by decide) (by decide) (by decide) (by decide) (by decide) (by decide)
      (by decide)).trans (by rfl)

/-- C3: `addProject` is atomic — whenever the call fails, the portfolio
state after the call is exactly the state before it; the project list is
changed only by a fully successful call. -/
theorem addProject_atomic (portfolio : Portfolio) (project : Project) (e : String)
    (h : (addProject portfolio project).1 = .error e) :
    (addProject portfolio project).2 = portfolio := by
  unfold addProject at h ⊢
  split
  case isTrue h1 => rfl
  case isFalse h1 =>
    split
    case isTrue h2 => rfl
    case isFalse h2 =>
      split
      case isTrue h3 => rfl
      case isFalse h3 =>
        split
        case isTrue h4 => rfl
        case isFalse h4 =>
          exfalso
          rw [if_neg h1, if_neg h2, if_neg h3, if_neg h4] at h
          simp at h

/-- Closed instance of C3: a duplicate-id failure leaves the project list
untouched. -/
theorem addProject_atomic_witness :
    (addProject demoPortfolio1 demoProject).2 = demoPortfolio1 :=
  addProject_atomic demoPortfolio1 demoProject
    "Project with ID \"1\" already exists" (by rfl)

/-- C4: `createPortfolio` fails with the single combined required-fields
message (containing "requires name, title, bio, and email") whenever any of
name, title, bio, email is empty, and succeeds whenever all four are
non-empty and the social links (if present) are valid. -/
theorem createPortfolio_required_fields (config : PortfolioConfig) :
    ((config.name = "" ∨ config.title = "" ∨ config.bio = "" ∨ config.email = "") →
      createPortfolio config =
        .error "Portfolio requires name, title, bio, and email in configuration" ∧
      strOccurs "requires name, title, bio, and email"
        "Portfolio requires name, title, bio, and email in configuration" = true) ∧
    (config.name ≠ "" → config.title ≠ "" → config.bio ≠ "" → config.email ≠ "" →
      invalidSocialLinks config = [] →
      isOk (createPortfolio config) = true) := by
  constructor
  · intro h
    refine ⟨?_, by decide⟩
    rcases h with h | h | h | h <;> simp [createPortfolio, h]
  · intro h1 h2 h3 h4 h5
    simp [createPortfolio, isOk, h1, h2, h3, h4, h5]

/-- Closed instances of C4: an empty email fails with the combined message,
the demo config succeeds. -/
theorem createPortfolio_required_fields_witness :
    createPortfolio { demoConfig with email := "" } =
      .error "Portfolio requires name, title, bio, and email in configuration" ∧
    isOk (createPortfolio demoConfig) = true :=
  ⟨((createPortfolio_required_fields { demoConfig with email := "" }).1 (by decide)).1,
   (createPortfolio_required_fields demoConfig).2
     (by decide) (by decide) (by decide) (by decide) (by decide)⟩

/-- C5: with valid required fields and social links containing non-empty
values that fail `isValidURL`, `createPortfolio` fails with a message
listing every offending `platform: url` pair (the whole filtered list, in
order), joined by comma-space; empty values are filtered out, not
reported. -/
theorem createPortfolio_lists_all_invalid_links (config : PortfolioConfig)
    (links : List (String × String))
    (h1 : config.name ≠ "") (h2 : config.title ≠ "") (h3 : config.bio ≠ "")
    (h4 : config.email ≠ "")
    (hsl : config.socialLinks = some links)
    (hbad : links.filter (fun pu => !(pu.2 == "") && !(isValidURL pu.2)) ≠ []) :
    createPortfolio config =
      .error ("Invalid URLs in social links: " ++ joinSep ", "
        ((links.filter (fun pu => !(pu.2 == "") && !(isValidURL pu.2))).map
          (fun pu => pu.1 ++ ": " ++ pu.2))) := by
  have hinv : invalidSocialLinks config =
      (links.filter (fun pu => !(pu.2 == "") && !(isValidURL pu.2))).map
        (fun pu => pu.1 ++ ": " ++ pu.2) := by
    simp [invalidSocialLinks, hsl]
  have hlen : ¬ ((invalidSocialLinks config).length = 0) := by
    rw [hinv]
    simp only [List.length_map, List.length_eq_zero]
    exact hbad
  have hcond1 : ¬ ((config.name == "" || config.title == "" || config.bio == ""
      || config.email == "") = true) := by
    simp [h1, h2, h3, h4]
  have hcond2 : (!((invalidSocialLinks config).length == 0)) = true := by
    simp [hlen]
  unfold createPortfolio
  rw [if_neg hcond1, if_pos hcond2, hinv]

/-- Closed instance of C5: two offending pairs are both reported, in order,
comma-space joined; the empty value and the valid URL are not. -/
theorem createPortfolio_lists_all_invalid_links_witness :
    createPortfolio badSocialConfig =
      .error "Invalid URLs in social links: github: bad url, tw: also bad" := by
  have h := createPortfolio_lists_all_invalid_links badSocialConfig
    [("github", "bad url"), ("x", ""), ("tw", "also bad"), ("ok", "https://ok.com")]
    (by decide) (by decide) (by decide) (by decide) rfl (by decide)
  exact h.trans (by rfl)

/-- C6: for every config `createPortfolio` accepts, the stored theme is the
supplied theme when present and `light` otherwise — in particular it is
never absent in the resulting portfolio. -/
theorem createPortfolio_theme_resolution (config : PortfolioConfig) (p : Portfolio)
    (h : createPortfolio config = .ok p) :
    p.config.theme = some (config.theme.getD Theme.light) ∧
    p.config.theme.isSome = true := by
  unfold createPortfolio at h
  split at h
  · cases h
  split at h
  · cases h
  · injection h with h'
    subst h'
    exact ⟨by cases config.theme <;> rfl, by cases config.theme <;> rfl⟩

/-- Closed instance of C6: the demo config supplies no theme and gets
`light`. -/
theorem createPortfolio_theme_resolution_witness :
    demoPortfolio0.config.theme = some (demoConfig.theme.getD Theme.light) ∧
    demoPortfolio0.config.theme.isSome = true :=
  createPortfolio_theme_resolution demoConfig demoPortfolio0 (by rfl)

/-- C10: in every portfolio reachable by `createPortfolio` followed by any
finite sequence of successful `addProject` calls, the project list equals,
in order, the sequence of projects those calls appended, and its ids are
pairwise distinct. -/
theorem reachable_projects_inv (p : Portfolio) (l : List Project)
    (h : Reachable p l) :
    p.projects = l ∧ (p.projects.map Project.id).Nodup := by
  induction h with
  | init config p0 hc =>
    have hp := createPortfolio_ok_projects config p0 hc
    exact ⟨hp, by simp [hp]⟩
  | step p0 p2 project l0 hr hstep ih =>
    obtain ⟨hproj, hnodup⟩ := ih
    obtain ⟨h2, hdup⟩ := addProject_ok p0 project p2 hstep
    constructor
    · rw [h2, hproj]
    · rw [h2]
      simp only [List.map_append, List.map_cons, List.map_nil]
      rw [List.nodup_append]
      refine ⟨hnodup, List.nodup_singleton _, ?_⟩
      intro a ha hb
      obtain ⟨q, hq, rfl⟩ := List.mem_map.mp ha
      have hne : ∀ r ∈ p0.projects, ¬ (r.id = project.id) := by
        simpa using hdup
      have hb' : q.id = project.id := by simpa using hb
      exact hne q hq hb'

/-- Closed instance of C10: create then one successful add yields exactly
that one project with distinct ids. -/
theorem reachable_projects_inv_witness :
    demoPortfolio1.projects = [demoProject] ∧
    (demoPortfolio1.projects.map Project.id).Nodup :=
  reachable_projects_inv demoPortfolio1 [demoProject]
    (Reachable.step demoPortfolio0 demoPortfolio1 demoProject []
      (Reachable.init demoConfig demoPortfolio0 (by rfl)) (by rfl))
